import Mathlib

set_option autoImplicit false

/-!
Shallow embedding of the repository source file src/context.py, which defines
a dot-notation dictionary class DotDict, an Event record class, and a Context
class populated from the process environment and a JSON event file.

Python dicts with string keys are modelled as association lists in insertion
order with unique keys; Python/JSON values are the inductive type Val; a raised
Python exception is an Except.error carrying a PyErr value; the process
environment is a function from variable name to Option String, and the
filesystem together with JSON parsing is a function from path to
Option (Except PyErr Val) (Option.none means the path does not exist, an
Except.error means the file exists but json.load fails on its contents).
-/

namespace GithubScript

/-- A Python/JSON value as produced by json.load and stored in dicts:
None, booleans, integers, strings, lists, and string-keyed dicts
(a dict is modelled as its association list of entries). -/
inductive Val where
  | none
  | bool (b : Bool)
  | int (n : Int)
  | str (s : String)
  | list (xs : List Val)
  | dict (entries : List (String × Val))
  deriving Repr

/-- The underlying mapping of a Python dict with string keys. -/
abbrev PyDict := List (String × Val)

/-- Python dict lookup: the value of the entry whose key matches, if any. -/
def pyLookup : PyDict → String → Option Val
  | [], _ => Option.none
  | (k, v) :: rest, key => if k = key then Option.some v else pyLookup rest key

/-- Python dict assignment d[key] = v: replaces the value in place when the
key is present, otherwise appends a new entry at the end. -/
def pySet : PyDict → String → Val → PyDict
  | [], key, v => [(key, v)]
  | (k, w) :: rest, key, v =>
    if k = key then (key, v) :: rest else (k, w) :: pySet rest key v

/-- Python dict deletion del d[key]: removes the entry whose key matches. -/
def pyDel : PyDict → String → PyDict
  | [], _ => []
  | (k, w) :: rest, key => if k = key then rest else (k, w) :: pyDel rest key

/-- Split a character list at every occurrence of the separator. -/
def splitSepAux (sep : Char) : List Char → List Char → List String
  | [], acc => [String.mk acc.reverse]
  | c :: cs, acc =>
    if c = sep then String.mk acc.reverse :: splitSepAux sep cs []
    else splitSepAux sep cs (c :: acc)

/-- Python str.split(sep) for a single-character separator: "a/b/c" splits to
["a", "b", "c"], "" splits to [""], "ab" splits to ["ab"]. -/
def pySplit (s : String) (sep : Char) : List String := splitSepAux sep s.data []

/-- Python str.upper for the ASCII field names used here. -/
def pyToUpper (s : String) : String := String.mk (s.data.map Char.toUpper)

/-- A raised Python exception, by kind. -/
inductive PyErr where
  /-- The ValueError raised by Context.repo when no repository identity
  source is available (the documented configuration error). -/
  | valueErrorConfig
  /-- The ValueError raised by unpacking a list whose length is not the
  number of assignment targets, as in owner, repo = repository.split. -/
  | valueErrorUnpack (got : Nat)
  /-- KeyError from indexing a dict with an absent key. -/
  | keyError (key : String)
  /-- TypeError from indexing a non-dict value. -/
  | typeError
  /-- AttributeError from accessing an attribute, such as .get, on a value
  that does not have it. -/
  | attributeError (name : String)
  /-- json.JSONDecodeError from json.load on a file that is not valid JSON. -/
  | jsonDecodeError (msg : String)
  deriving Repr, DecidableEq

/-! ### DotDict (src/context.py lines 5-20)

    def __getattr__(self, attr):
        value = self.get(attr)
        if isinstance(value, dict):
            return NestedDict(value)
        return value

    def __setattr__(self, key, value):
        self[key] = value

    def __delattr__(self, item):
        if item in self:
            del self[item]

Attribute access is modelled at the level of these defined methods: a read
that reaches __getattr__ either yields a plain value or, when the stored
value is itself a dict, yields that dict wrapped for further dotted access. -/

/-- The result of DotDict attribute read: either a plain value, or a nested
dict wrapped for dotted access (the NestedDict(value) branch). -/
inductive AttrResult where
  | plain (v : Val)
  | nested (m : PyDict)
  deriving Repr

/-- DotDict.__getattr__: self.get(attr) returns None when the key is absent;
a dict value is returned wrapped as NestedDict(value); any other value is
returned as is. -/
def dotGetattr (m : PyDict) (attr : String) : AttrResult :=
  match pyLookup m attr with
  | Option.some (Val.dict inner) => AttrResult.nested inner
  | Option.some v => AttrResult.plain v
  | Option.none => AttrResult.plain Val.none

/-- Modelled from the spec: the class NestedDict is referenced by
DotDict.__getattr__ and as the base class of Event, but its definition is
not under src/. Per the spec, a nested mapping value is "returned wrapped in
the same dotted-access behavior (so chained attribute access works on nested
structures)", so attribute read on the wrapper is the same get-attribute
operation as DotDict. -/
def nestedGetattr (m : PyDict) (attr : String) : AttrResult := dotGetattr m attr

/-- DotDict.__setattr__: self[key] = value, writing through to the dict. -/
def dotSetattr (m : PyDict) (key : String) (v : Val) : PyDict := pySet m key v

/-- DotDict.__delattr__: delete the entry if present, otherwise do nothing. -/
def dotDelattr (m : PyDict) (item : String) : PyDict :=
  if (pyLookup m item).isSome then pyDel m item else m

/-! ### Context (src/context.py lines 35-134) -/

/-- Python value[key] on a dict value: the entry when present, KeyError when
the key is absent, TypeError when the value is not a dict. -/
def pyIndex (v : Val) (key : String) : Except PyErr Val :=
  match v with
  | Val.dict m =>
    match pyLookup m key with
    | Option.some x => Except.ok x
    | Option.none => Except.error (PyErr.keyError key)
  | _ => Except.error PyErr.typeError

/-- Python d.get(key, default) on a dict mapping. -/
def pyGetD (m : PyDict) (key : String) (default : Val) : Val :=
  match pyLookup m key with
  | Option.some x => x
  | Option.none => default

/-- Python value.get(key, default) on an arbitrary value: dispatches to dict
get when the value is a dict, otherwise raises AttributeError (only dicts
carry a .get method among the modelled values). -/
def pyGetMethod (v : Val) (key : String) (default : Val) : Except PyErr Val :=
  match v with
  | Val.dict m => Except.ok (pyGetD m key default)
  | _ => Except.error (PyErr.attributeError "get")

/-- The class-level fields of Context with their literal defaults
(src/context.py lines 40-84). Instance attribute reads fall back to these
when the instance dict has no entry. -/
def classDefaults : PyDict :=
  [ ("payload", Val.dict []),
    ("event_name", Val.str ""),
    ("sha", Val.str ""),
    ("ref", Val.str ""),
    ("workflow", Val.str ""),
    ("action", Val.str ""),
    ("actor", Val.str ""),
    ("job", Val.str ""),
    ("run_attempt", Val.int 0),
    ("run_number", Val.int 0),
    ("run_id", Val.int 0),
    ("api_url", Val.str "https://api.github.com"),
    ("server_url", Val.str "https://github.com"),
    ("graphql_url", Val.str "https://api.github.com/graphql") ]

/-- Python getattr(self, field) for Context data fields: the instance dict
entry when present, else the class-level default, else absent. -/
def contextGetattr (inst : PyDict) (field : String) : Option Val :=
  match pyLookup inst field with
  | Option.some v => Option.some v
  | Option.none => pyLookup classDefaults field

def underscore : String := "_"

/-- field.startswith(an underscore), the private-field guard in __init__. -/
def isPrivateField (field : String) : Bool := field.startsWith underscore

/-- os.getenv(env_var, default_value) for one field of the __init__ loop:
the environment value is taken verbatim as a string (no coercion), the
default is the current getattr(self, field). -/
def initFieldValue (env : String → Option String) (d : PyDict) (field : String) : Val :=
  match env ("GITHUB_" ++ pyToUpper field) with
  | Option.some v => Val.str v
  | Option.none => (contextGetattr d field).getD Val.none

/-- Context._get_payload: read GITHUB_EVENT_PATH; when it is set, nonempty
(Python truthiness) and the path exists, return the json.load result of the
file (propagating a parse failure); otherwise return the empty dict. -/
def getPayload (eventPath : Option String)
    (fileJson : String → Option (Except PyErr Val)) : Except PyErr Val :=
  match eventPath with
  | Option.some p =>
    if p = "" then Except.ok (Val.dict [])
    else
      match fileJson p with
      | Option.some parsed => parsed
      | Option.none => Except.ok (Val.dict [])
  | Option.none => Except.ok (Val.dict [])

/-- Context.__init__: iterates over self.__dict__.keys() — the instance dict
of a freshly constructed object, which is empty at that point, so the loop
body runs zero times — then sets self.payload = self._get_payload().
The loop is embedded as written: a fold over the keys of the instance dict,
skipping private fields and writing os.getenv(GITHUB_ + field.upper(),
current value) back through setattr. The callable(getattr(self, field))
guard of the source always tests a data value here (no Val is callable), so
it never skips a field. -/
def contextInit (env : String → Option String)
    (fileJson : String → Option (Except PyErr Val)) : Except PyErr PyDict :=
  let selfDict : PyDict := []
  let selfDict := (selfDict.map Prod.fst).foldl
    (fun d field =>
      if isPrivateField field then d
      else pySet d field (initFieldValue env d field))
    selfDict
  match getPayload (env "GITHUB_EVENT_PATH") fileJson with
  | Except.ok p => Except.ok (pySet selfDict "payload" p)
  | Except.error e => Except.error e

/-- The payload branch of Context.repo: when the payload has a repository
key, build the owner/repo dict from payload[repository][owner][login] and
payload[repository][name]; otherwise raise the configuration ValueError. -/
def repoFromPayload (payload : PyDict) : Except PyErr PyDict :=
  match pyLookup payload "repository" with
  | Option.some repository =>
    match pyIndex repository "owner" with
    | Except.ok owner =>
      match pyIndex owner "login" with
      | Except.ok login =>
        match pyIndex repository "name" with
        | Except.ok name => Except.ok [("owner", login), ("repo", name)]
        | Except.error e => Except.error e
      | Except.error e => Except.error e
    | Except.error e => Except.error e
  | Option.none => Except.error PyErr.valueErrorConfig

/-- Context.repo: os.getenv(GITHUB_REPOSITORY); when set and nonempty
(Python truthiness), owner, repo = repository.split and the two-element
unpacking raises ValueError when the split does not have exactly two parts;
otherwise fall back to the payload branch. -/
def repoOf (ghRepository : Option String) (payload : PyDict) : Except PyErr PyDict :=
  match ghRepository with
  | Option.some s =>
    if s = "" then repoFromPayload payload
    else
      match pySplit s '/' with
      | [owner, repo] => Except.ok [("owner", Val.str owner), ("repo", Val.str repo)]
      | parts => Except.error (PyErr.valueErrorUnpack parts.length)
  | Option.none => repoFromPayload payload

/-- The number line of Context.issue:
self.payload.get(issue, self.payload.get(pull_request, self.payload)).get(number).
The outer .get dispatches on whatever value the chain of defaults selects. -/
def issueNumber (payload : PyDict) : Except PyErr Val :=
  pyGetMethod
    (pyGetD payload "issue" (pyGetD payload "pull_request" (Val.dict payload)))
    "number" Val.none

/-- Context.issue: compute number, then Event(**self.repo, number=number);
an exception from either step propagates (the number expression is evaluated
first, then self.repo). -/
def issueOf (ghRepository : Option String) (payload : PyDict) : Except PyErr PyDict :=
  match issueNumber payload with
  | Except.ok number =>
    match repoOf ghRepository payload with
    | Except.ok r => Except.ok (pySet r "number" number)
    | Except.error e => Except.error e
  | Except.error e => Except.error e

/-- A sample filesystem-with-parser for concrete instantiations: one file
that parses to a small object, one file whose contents are malformed JSON,
and no other paths. -/
def fjSample : String → Option (Except PyErr Val) := fun p =>
  if p = "good.json" then Option.some (Except.ok (Val.dict [("a", Val.int 1)]))
  else if p = "bad.json" then
    Option.some (Except.error (PyErr.jsonDecodeError "expecting value"))
  else Option.none

/-- The empty environment: no variable is set. -/
def envEmpty : String → Option String := fun _ => Option.none

/-- A missing filesystem: no path exists. -/
def fjNone : String → Option (Except PyErr Val) := fun _ => Option.none

/-- An environment with only GITHUB_RUN_ID set, to the string 42. -/
def envRunId : String → Option String := fun k =>
  if k = "GITHUB_RUN_ID" then Option.some "42" else Option.none

/-- A payload whose repository entry carries owner.login and name. -/
def payloadRepoSample : PyDict :=
  [ ("repository",
     Val.dict [ ("owner", Val.dict [("login", Val.str "octocat")]),
                ("name", Val.str "Hello-World") ]) ]

/-- A payload with an issue entry that has no number, next to a pull_request
entry that has one. -/
def pIssueEmptyPR : PyDict :=
  [ ("issue", Val.dict []),
    ("pull_request", Val.dict [("number", Val.int 9)]) ]

/-- A payload carrying only issue.number. -/
def pIssueOnly : PyDict := [("issue", Val.dict [("number", Val.int 7)])]

/-! ## Theorems -/

theorem repoOf_falsy (gr : Option String) (p : PyDict)
    (h : gr = Option.none ∨ gr = Option.some "") :
    repoOf gr p = repoFromPayload p := by
  rcases h with rfl | rfl <;> simp [repoOf]

theorem repoFromPayload_no_key (p : PyDict)
    (h : pyLookup p "repository" = Option.none) :
    repoFromPayload p = Except.error PyErr.valueErrorConfig := by
  simp [repoFromPayload, h]

theorem pyIndex_ne_config (v : Val) (k : String) :
    pyIndex v k ≠ Except.error PyErr.valueErrorConfig := by
  cases v with
  | none => simp [pyIndex]
  | bool b => simp [pyIndex]
  | int n => simp [pyIndex]
  | str s => simp [pyIndex]
  | list xs => simp [pyIndex]
  | dict m =>
    simp only [pyIndex]
    cases pyLookup m k <;> simp

theorem repoFromPayload_config (p : PyDict)
    (h : repoFromPayload p = Except.error PyErr.valueErrorConfig) :
    pyLookup p "repository" = Option.none := by
  cases hrep : pyLookup p "repository" with
  | none => rfl
  | some repository =>
    exfalso
    cases how : pyIndex repository "owner" with
    | error e =>
      have he : e = PyErr.valueErrorConfig := by
        simp [repoFromPayload, hrep, how] at h
        exact h
      exact pyIndex_ne_config repository "owner" (by rw [how, he])
    | ok owner =>
      cases hlg : pyIndex owner "login" with
      | error e =>
        have he : e = PyErr.valueErrorConfig := by
          simp [repoFromPayload, hrep, how, hlg] at h
          exact h
        exact pyIndex_ne_config owner "login" (by rw [hlg, he])
      | ok login =>
        cases hnm : pyIndex repository "name" with
        | error e =>
          have he : e = PyErr.valueErrorConfig := by
            simp [repoFromPayload, hrep, how, hlg, hnm] at h
            exact h
          exact pyIndex_ne_config repository "name" (by rw [hnm, he])
        | ok name =>
          simp [repoFromPayload, hrep, how, hlg, hnm] at h

/-- C3 counterexample: with GITHUB_REPOSITORY set to a/b/c, a string that is
not OWNER/NAME-formatted, and a payload carrying repository.owner.login and
repository.name, the claim says repo equals the payload-derived value; the
code instead raises the unpacking ValueError from splitting a/b/c. -/
theorem C3_malformed_env_cex :
    pyLookup payloadRepoSample "repository"
      = Option.some (Val.dict [ ("owner", Val.dict [("login", Val.str "octocat")]),
                                ("name", Val.str "Hello-World") ])
    ∧ repoOf (Option.some "a/b/c") payloadRepoSample
      = Except.error (PyErr.valueErrorUnpack 3)
    ∧ (Except.error (PyErr.valueErrorUnpack 3) : Except PyErr PyDict)
      ≠ Except.ok [("owner", Val.str "octocat"), ("repo", Val.str "Hello-World")] :=
  ⟨rfl, rfl, by simp⟩

/-- C3 amended: when GITHUB_REPOSITORY is set and splits on the separator
into exactly two parts, repo is built from those parts regardless of the
payload; when GITHUB_REPOSITORY is unset or empty and the payload has a
repository entry whose owner.login and name resolve, repo is the
payload-derived pair; when GITHUB_REPOSITORY is unset or empty and the
payload has no repository key, repo raises the configuration error. -/
theorem C3_repo_resolution :
    (∀ (s owner repo : String) (p : PyDict),
        pySplit s '/' = [owner, repo] →
        repoOf (Option.some s) p
          = Except.ok [("owner", Val.str owner), ("repo", Val.str repo)])
    ∧ (∀ (gr : Option String) (p : PyDict) (repository owner login name : Val),
        (gr = Option.none ∨ gr = Option.some "") →
        pyLookup p "repository" = Option.some repository →
        pyIndex repository "owner" = Except.ok owner →
        pyIndex owner "login" = Except.ok login →
        pyIndex repository "name" = Except.ok name →
        repoOf gr p = Except.ok [("owner", login), ("repo", name)])
    ∧ (∀ (gr : Option String) (p : PyDict),
        (gr = Option.none ∨ gr = Option.some "") →
        pyLookup p "repository" = Option.none →
        repoOf gr p = Except.error PyErr.valueErrorConfig) := by
  refine ⟨?_, ?_, ?_⟩
  · intro s owner repo p h
    have hs : s ≠ "" := by
      rintro rfl
      simp [pySplit, splitSepAux] at h
    simp [repoOf, hs, h]
  · intro gr p repository owner login name hgr hrep how hlg hnm
    rw [repoOf_falsy gr p hgr]
    simp [repoFromPayload, hrep, how, hlg, hnm]
  · intro gr p hgr hrep
    rw [repoOf_falsy gr p hgr]
    exact repoFromPayload_no_key p hrep

theorem C3_repo_resolution_witness :
    pySplit "octocat/Hello-World" '/' = ["octocat", "Hello-World"]
    ∧ repoOf (Option.some "octocat/Hello-World") pIssueOnly
      = Except.ok [("owner", Val.str "octocat"), ("repo", Val.str "Hello-World")]
    ∧ repoOf Option.none payloadRepoSample
      = Except.ok [("owner", Val.str "octocat"), ("repo", Val.str "Hello-World")]
    ∧ repoOf (Option.some "") [] = Except.error PyErr.valueErrorConfig :=
  ⟨rfl,
   C3_repo_resolution.1 "octocat/Hello-World" "octocat" "Hello-World" pIssueOnly rfl,
   C3_repo_resolution.2.1 Option.none payloadRepoSample _ _ _ _
     (Or.inl rfl) rfl rfl rfl rfl,
   C3_repo_resolution.2.2 (Option.some "") [] (Or.inr rfl) rfl⟩

/-- C10: a nonempty GITHUB_REPOSITORY whose split does not have exactly two
parts makes repo raise the unpacking ValueError, which is not the
configuration error; and the configuration-error branch is reached exactly
when GITHUB_REPOSITORY is unset or empty and the payload has no repository
key. -/
theorem C10_malformed_repo_unpack :
    (∀ (s : String) (p : PyDict), s ≠ "" → (pySplit s '/').length ≠ 2 →
        repoOf (Option.some s) p
          = Except.error (PyErr.valueErrorUnpack (pySplit s '/').length)
        ∧ PyErr.valueErrorUnpack (pySplit s '/').length ≠ PyErr.valueErrorConfig)
    ∧ (∀ (gr : Option String) (p : PyDict),
        repoOf gr p = Except.error PyErr.valueErrorConfig →
        (gr = Option.none ∨ gr = Option.some "")
        ∧ pyLookup p "repository" = Option.none) := by
  constructor
  · intro s p hs hlen
    refine ⟨?_, by simp⟩
    rcases hsp : pySplit s '/' with _ | ⟨a, _ | ⟨b, _ | ⟨c, t⟩⟩⟩
    · simp [repoOf, hs, hsp]
    · simp [repoOf, hs, hsp]
    · rw [hsp] at hlen; simp at hlen
    · simp [repoOf, hs, hsp]
  · intro gr p h
    rcases gr with _ | s
    · exact ⟨Or.inl rfl, repoFromPayload_config p (by simpa [repoOf] using h)⟩
    · by_cases hs : s = ""
      · subst hs
        exact ⟨Or.inr rfl, repoFromPayload_config p (by simpa [repoOf] using h)⟩
      · exfalso
        rcases hsp : pySplit s '/' with _ | ⟨a, _ | ⟨b, _ | ⟨c, t⟩⟩⟩ <;>
          simp [repoOf, hs, hsp] at h

theorem C10_malformed_repo_unpack_witness :
    repoOf (Option.some "noslash") [] = Except.error (PyErr.valueErrorUnpack 1)
    ∧ repoOf (Option.some "a/b/c") [] = Except.error (PyErr.valueErrorUnpack 3)
    ∧ PyErr.valueErrorUnpack 3 ≠ PyErr.valueErrorConfig
    ∧ (Option.none = (Option.none : Option String) ∨ Option.none = Option.some "")
    ∧ pyLookup ([] : PyDict) "repository" = Option.none :=
  ⟨(C10_malformed_repo_unpack.1 "noslash" [] (by decide) (by decide)).1,
   (C10_malformed_repo_unpack.1 "a/b/c" [] (by decide) (by decide)).1,
   (C10_malformed_repo_unpack.1 "a/b/c" [] (by decide) (by decide)).2,
   (C10_malformed_repo_unpack.2 Option.none [] rfl).1,
   (C10_malformed_repo_unpack.2 Option.none [] rfl).2⟩

/-- C4 counterexample: for the payload with an issue entry that lacks a
number next to a pull_request entry with number 9, the claim says the issue
view number falls back to 9; the code selects the issue entry because the
issue key is present and yields None from its missing number. -/
theorem C4_fallback_cex :
    pyLookup pIssueEmptyPR "issue" = Option.some (Val.dict [])
    ∧ pyLookup pIssueEmptyPR "pull_request"
      = Option.some (Val.dict [("number", Val.int 9)])
    ∧ issueNumber pIssueEmptyPR = Except.ok Val.none
    ∧ issueOf (Option.some "octocat/Hello-World") pIssueEmptyPR
      = Except.ok [ ("owner", Val.str "octocat"), ("repo", Val.str "Hello-World"),
                    ("number", Val.none) ]
    ∧ Val.none ≠ Val.int 9 :=
  ⟨rfl, rfl, rfl, rfl, by simp⟩

/-- C4 amended: the issue view number is payload[issue][number] whenever the
issue key is present and maps to an object (None when that object lacks a
number, with no further fallback); payload[pull_request][number] when the
issue key is absent and pull_request is present and maps to an object; and
payload[number] when both keys are absent. -/
theorem C4_issue_number_selection :
    (∀ (p m : PyDict), pyLookup p "issue" = Option.some (Val.dict m) →
        issueNumber p = Except.ok (pyGetD m "number" Val.none))
    ∧ (∀ (p m : PyDict), pyLookup p "issue" = Option.none →
        pyLookup p "pull_request" = Option.some (Val.dict m) →
        issueNumber p = Except.ok (pyGetD m "number" Val.none))
    ∧ (∀ (p : PyDict), pyLookup p "issue" = Option.none →
        pyLookup p "pull_request" = Option.none →
        issueNumber p = Except.ok (pyGetD p "number" Val.none)) := by
  refine ⟨?_, ?_, ?_⟩
  · intro p m h
    simp [issueNumber, pyGetD, pyGetMethod, h]
  · intro p m h1 h2
    simp [issueNumber, pyGetD, pyGetMethod, h1, h2]
  · intro p h1 h2
    simp [issueNumber, pyGetD, pyGetMethod, h1, h2]

theorem C4_issue_number_selection_witness :
    issueNumber pIssueOnly = Except.ok (Val.int 7)
    ∧ issueNumber [("pull_request", Val.dict [("number", Val.int 9)])]
      = Except.ok (Val.int 9)
    ∧ issueNumber [("number", Val.int 5)] = Except.ok (Val.int 5) :=
  ⟨C4_issue_number_selection.1 pIssueOnly [("number", Val.int 7)] rfl,
   C4_issue_number_selection.2.1 [("pull_request", Val.dict [("number", Val.int 9)])]
     [("number", Val.int 9)] rfl rfl,
   C4_issue_number_selection.2.2 [("number", Val.int 5)] rfl rfl⟩

/-- C9: when GITHUB_REPOSITORY is unset or empty and the payload has no
repository key, accessing the issue view raises the same configuration
ValueError as accessing repo, even when the payload carries issue.number:
the number expression succeeds and the failure comes from the repo view the
issue view is built on. -/
theorem C9_issue_requires_repo (gr : Option String) (p m : PyDict) (n : Val)
    (hgr : gr = Option.none ∨ gr = Option.some "")
    (hrep : pyLookup p "repository" = Option.none)
    (hissue : pyLookup p "issue" = Option.some (Val.dict m))
    (_hnum : pyLookup m "number" = Option.some n) :
    issueOf gr p = Except.error PyErr.valueErrorConfig
    ∧ repoOf gr p = Except.error PyErr.valueErrorConfig := by
  have hr : repoOf gr p = Except.error PyErr.valueErrorConfig := by
    rw [repoOf_falsy gr p hgr]
    exact repoFromPayload_no_key p hrep
  refine ⟨?_, hr⟩
  have hn : issueNumber p = Except.ok (pyGetD m "number" Val.none) := by
    simp [issueNumber, pyGetD, pyGetMethod, hissue]
  simp [issueOf, hn, hr]

theorem C9_issue_requires_repo_witness :
    pyLookup pIssueOnly "issue" = Option.some (Val.dict [("number", Val.int 7)])
    ∧ issueOf Option.none pIssueOnly = Except.error PyErr.valueErrorConfig
    ∧ repoOf Option.none pIssueOnly = Except.error PyErr.valueErrorConfig :=
  ⟨rfl,
   (C9_issue_requires_repo Option.none pIssueOnly [("number", Val.int 7)]
      (Val.int 7) (Or.inl rfl) rfl rfl rfl).1,
   (C9_issue_requires_repo Option.none pIssueOnly [("number", Val.int 7)]
      (Val.int 7) (Or.inl rfl) rfl rfl rfl).2⟩

theorem pyLookup_pySet_self (m : PyDict) (k : String) (v : Val) :
    pyLookup (pySet m k v) k = Option.some v := by
  induction m with
  | nil => simp [pySet, pyLookup]
  | cons hd tl ih =>
    obtain ⟨k0, v0⟩ := hd
    by_cases hk : k0 = k
    · simp [pySet, hk, pyLookup]
    · simp [pySet, hk, pyLookup, ih]

/-- C2: on a dotted-access mapping, setting attribute x to the nested mapping
with y bound to 1 and reading attribute x back yields that mapping wrapped
for dotted access, on which reading attribute y yields 1; in general, reading
an attribute whose stored value is a mapping returns that mapping wrapped in
the same dotted-access behavior. -/
theorem C2_nested_dot_access :
    (∀ (m : PyDict) (x : String),
        dotGetattr (dotSetattr m x (Val.dict [("y", Val.int 1)])) x
          = AttrResult.nested [("y", Val.int 1)]
        ∧ nestedGetattr [("y", Val.int 1)] "y" = AttrResult.plain (Val.int 1))
    ∧ (∀ (m : PyDict) (k : String) (inner : PyDict),
        pyLookup m k = Option.some (Val.dict inner) →
        dotGetattr m k = AttrResult.nested inner) := by
  constructor
  · intro m x
    constructor
    · simp [dotSetattr, dotGetattr, pyLookup_pySet_self]
    · rfl
  · intro m k inner h
    simp [dotGetattr, h]

theorem C2_nested_dot_access_witness :
    dotGetattr (dotSetattr ([] : PyDict) "x" (Val.dict [("y", Val.int 1)])) "x"
      = AttrResult.nested [("y", Val.int 1)]
    ∧ nestedGetattr [("y", Val.int 1)] "y" = AttrResult.plain (Val.int 1)
    ∧ pyLookup [("cfg", Val.dict [("z", Val.int 2)])] "cfg"
      = Option.some (Val.dict [("z", Val.int 2)])
    ∧ dotGetattr [("cfg", Val.dict [("z", Val.int 2)])] "cfg"
      = AttrResult.nested [("z", Val.int 2)] :=
  ⟨(C2_nested_dot_access.1 [] "x").1,
   (C2_nested_dot_access.1 [] "x").2,
   rfl,
   C2_nested_dot_access.2 [("cfg", Val.dict [("z", Val.int 2)])] "cfg"
     [("z", Val.int 2)] rfl⟩

/-- C5: payload loading at construction. When the event-path variable is
unset, or set to a path with no file behind it (or empty, which no existing
file can have), the payload is the empty object; when the file exists, the
json.load result is returned as is, so a valid document becomes the payload
and a parse failure propagates as an error. -/
theorem C5_payload_loading :
    (∀ fj, getPayload Option.none fj = Except.ok (Val.dict []))
    ∧ (∀ (p : String) fj, fj p = Option.none →
        getPayload (Option.some p) fj = Except.ok (Val.dict []))
    ∧ (∀ (p : String) fj (r : Except PyErr Val), p ≠ "" → fj p = Option.some r →
        getPayload (Option.some p) fj = r) := by
  refine ⟨fun fj => rfl, ?_, ?_⟩
  · intro p fj h
    by_cases hp : p = ""
    · simp [getPayload, hp]
    · simp [getPayload, hp, h]
  · intro p fj r hp h
    simp [getPayload, hp, h]

theorem C5_payload_loading_witness :
    getPayload Option.none fjSample = Except.ok (Val.dict [])
    ∧ fjSample "missing.json" = Option.none
    ∧ getPayload (Option.some "missing.json") fjSample = Except.ok (Val.dict [])
    ∧ getPayload (Option.some "good.json") fjSample
      = Except.ok (Val.dict [("a", Val.int 1)])
    ∧ getPayload (Option.some "bad.json") fjSample
      = Except.error (PyErr.jsonDecodeError "expecting value") :=
  ⟨C5_payload_loading.1 fjSample,
   rfl,
   C5_payload_loading.2.1 "missing.json" fjSample rfl,
   C5_payload_loading.2.2 "good.json" fjSample _ (by decide) rfl,
   C5_payload_loading.2.2 "bad.json" fjSample _ (by decide) rfl⟩

/-- C7: on a dotted-access mapping, reading an attribute whose key is absent
from the mapping returns the absence marker None; the read is total (the
embedded __getattr__ returns a value on every input and raises nothing). -/
theorem C7_absent_attr (m : PyDict) (k : String)
    (h : pyLookup m k = Option.none) :
    dotGetattr m k = AttrResult.plain Val.none := by
  simp [dotGetattr, h]

theorem C7_absent_attr_witness :
    pyLookup ([] : PyDict) "missing" = Option.none
    ∧ dotGetattr ([] : PyDict) "missing" = AttrResult.plain Val.none :=
  ⟨rfl, C7_absent_attr [] "missing" rfl⟩

/-- C8 counterexample: the claim says the result of looking up an absent key
differs from the result when the key is bound to null; on the code both
reads return the plain value None — here concretely for key k on the empty
mapping versus the mapping binding k to None. -/
theorem C8_marker_equals_null_cex :
    pyLookup ([] : PyDict) "k" = Option.none
    ∧ pyLookup [("k", Val.none)] "k" = Option.some Val.none
    ∧ dotGetattr ([] : PyDict) "k" = dotGetattr [("k", Val.none)] "k" :=
  ⟨rfl, rfl, rfl⟩

/-- C8 amended: the lookup result for an absent key is the plain value None,
and it coincides with (is not distinct from) the result for a key stored
with the null value. -/
theorem C8_marker_coincides_with_null (m mnull : PyDict) (k : String)
    (habs : pyLookup m k = Option.none)
    (hnull : pyLookup mnull k = Option.some Val.none) :
    dotGetattr m k = AttrResult.plain Val.none
    ∧ dotGetattr mnull k = dotGetattr m k := by
  constructor
  · simp [dotGetattr, habs]
  · simp [dotGetattr, habs, hnull]

theorem C8_marker_coincides_with_null_witness :
    dotGetattr ([] : PyDict) "k2" = AttrResult.plain Val.none
    ∧ dotGetattr [("k2", Val.none)] "k2" = dotGetattr ([] : PyDict) "k2" :=
  C8_marker_coincides_with_null [] [("k2", Val.none)] "k2" rfl rfl

theorem contextInit_ok (env : String → Option String)
    (fj : String → Option (Except PyErr Val)) (inst : PyDict)
    (h : contextInit env fj = Except.ok inst) :
    ∃ p, getPayload (env "GITHUB_EVENT_PATH") fj = Except.ok p
      ∧ inst = [("payload", p)] := by
  simp only [contextInit, List.map_nil, List.foldl_nil] at h
  cases hp : getPayload (env "GITHUB_EVENT_PATH") fj with
  | ok p =>
    rw [hp] at h
    simp [pySet] at h
    exact ⟨p, rfl, h.symm⟩
  | error e =>
    rw [hp] at h
    exact Except.noConfusion h

theorem pyLookup_of_mem (m : PyDict) (k : String) (v : Val)
    (hmem : (k, v) ∈ m) (hnd : (m.map Prod.fst).Nodup) :
    pyLookup m k = Option.some v := by
  induction m with
  | nil => cases hmem
  | cons hd tl ih =>
    obtain ⟨k0, v0⟩ := hd
    simp only [List.map_cons, List.nodup_cons] at hnd
    rcases List.mem_cons.mp hmem with heq | htl
    · cases heq
      simp [pyLookup]
    · have hk : ¬ (k0 = k) := by
        rintro rfl
        exact hnd.1 (List.mem_map.mpr ⟨(k0, v), htl, rfl⟩)
      simp [pyLookup, hk, ih htl hnd.2]

theorem classDefaults_keys_nodup : (classDefaults.map Prod.fst).Nodup := by
  decide

/-- C6: for every declared Context field, on a successfully constructed
instance with the corresponding GITHUB_ variable unset (and, for the payload
field, no event file given), reading the field yields its literal class-level
default. With the construction loop running zero times this holds for the
non-payload fields whatever the environment holds; the unset hypothesis
keeps the statement of the claim. -/
theorem C6_defaults_when_unset (env : String → Option String)
    (fj : String → Option (Except PyErr Val)) (inst : PyDict)
    (field : String) (d : Val)
    (hinit : contextInit env fj = Except.ok inst)
    (hmem : (field, d) ∈ classDefaults)
    (_henv : env ("GITHUB_" ++ pyToUpper field) = Option.none)
    (hpayload : field = "payload" → env "GITHUB_EVENT_PATH" = Option.none) :
    contextGetattr inst field = Option.some d := by
  obtain ⟨p, hp, rfl⟩ := contextInit_ok env fj inst hinit
  have hcls : pyLookup classDefaults field = Option.some d :=
    pyLookup_of_mem classDefaults field d hmem classDefaults_keys_nodup
  by_cases hf : field = "payload"
  · subst hf
    have hd : d = Val.dict [] := by
      have h0 : pyLookup classDefaults "payload" = Option.some (Val.dict []) := rfl
      rw [hcls] at h0
      exact Option.some.inj h0
    subst hd
    have hep := hpayload rfl
    rw [hep] at hp
    simp only [getPayload, Except.ok.injEq] at hp
    subst hp
    rfl
  · have hne : ¬ ("payload" = field) := fun h => hf h.symm
    have h1 : pyLookup [("payload", p)] field = Option.none := by
      simp [pyLookup, hne]
    simp [contextGetattr, h1, hcls]

theorem C6_defaults_when_unset_witness :
    contextInit envEmpty fjNone = Except.ok [("payload", Val.dict [])]
    ∧ ("run_id", Val.int 0) ∈ classDefaults
    ∧ envEmpty ("GITHUB_" ++ pyToUpper "run_id") = Option.none
    ∧ contextGetattr [("payload", Val.dict [])] "run_id"
      = Option.some (Val.int 0) :=
  ⟨rfl, by simp [classDefaults], rfl,
   C6_defaults_when_unset envEmpty fjNone [("payload", Val.dict [])]
     "run_id" (Val.int 0) rfl (by simp [classDefaults]) rfl
     (fun h => rfl)⟩

/-- C1: the claim says a set GITHUB_RUN_ID makes the constructed run_id
field equal the environment string. On the code, construction iterates over
the instance dict, which is empty at that point, so no environment variable
is ever read into a field: with GITHUB_RUN_ID set to 42 the constructed
instance still reads run_id as the class default 0, not the string 42. -/
theorem C1_env_value_ignored :
    envRunId "GITHUB_RUN_ID" = Option.some "42"
    ∧ contextInit envRunId fjNone = Except.ok [("payload", Val.dict [])]
    ∧ contextGetattr [("payload", Val.dict [])] "run_id"
      = Option.some (Val.int 0)
    ∧ Option.some (Val.int 0) ≠ Option.some (Val.str "42") :=
  ⟨rfl, rfl, rfl, by simp⟩

end GithubScript
